import Mathlib

/-!
Shallow embedding of the pico-midi-looper-ble control core
(src/src/tap_tempo.c, src/src/button.c, src/src/main.c) and proofs about it.

Machine integers are embedded as `Nat`/`Int`; `uint64` subtraction is taken
modulo `UINT64_SIZE = 2 ^ 64`, and `uint8` counters modulo 256 where the C
code can wrap.  C code that can divide by zero (undefined behaviour) is
embedded as an `Option`-valued function returning `none` there.
-/

namespace PicoLooper

/-- 2 ^ 64, the modulus of C `uint64_t` arithmetic. -/
def UINT64_SIZE : Nat := 18446744073709551616

/-- button_event_t from include/drivers/button.h. -/
inductive ButtonEvent where
  | NONE
  | DOWN
  | CLICK_RELEASE
  | HOLD_BEGIN
  | HOLD_RELEASE
  | LONG_HOLD_BEGIN
  | LONG_HOLD_RELEASE
  | VERY_LONG_HOLD_BEGIN
  | VERY_LONG_HOLD_RELEASE
deriving DecidableEq, Repr

/-- tap_result_t from include/tap_tempo.h. -/
inductive TapResult where
  | TAP_NONE
  | TAP_PRELIM
  | TAP_FINAL
  | TAP_EXIT
deriving DecidableEq, Repr

/-- tt_state_t from src/tap_tempo.c. -/
inductive TtState where
  | TT_IDLE
  | TT_COLLECT
deriving DecidableEq, Repr

def TAP_MIN_BPM : Nat := 40
def TAP_MAX_BPM : Nat := 240
def TAP_MAX_TAPS : Nat := 4
def TIMEOUT_US : Nat := 1000 * 1000

/-- tap_ctx_t from src/tap_tempo.c, together with the file-static
`latest_bpm` that `taptempo_get_bpm` reads.  The C struct also has an
`is_active` flag that no code ever reads or writes; it is omitted. -/
structure TapCtx where
  state : TtState
  stamp : List Nat
  count : Nat
  latest_bpm : Nat
deriving DecidableEq, Repr

/-- The initial `static tap_ctx_t ctx = {0}` and `latest_bpm = 120`. -/
def tapCtx0 : TapCtx :=
  { state := .TT_IDLE, stamp := [0, 0, 0, 0], count := 0, latest_bpm := 120 }

/-- calc_bpm from src/tap_tempo.c.  `delta_us` is the `uint64` difference
`last_us - first_us`; the C code guards only `delta_us == 0`, and then
divides by `delta_ms = (delta_us + 500) / 1000` (truncated to `uint32`),
which is zero whenever `0 < delta_us < 500`: that division is undefined
behaviour in C, embedded here as `none`. -/
def calc_bpm (first_us last_us : Nat) (intervals : Nat) : Option Nat :=
  let delta_us := (last_us + UINT64_SIZE - first_us) % UINT64_SIZE
  if delta_us = 0 then some TAP_MIN_BPM
  else
    let delta_ms := ((delta_us + 500) / 1000) % 4294967296
    if delta_ms = 0 then none
    else
      let bpm := (60000 * intervals + delta_ms / 2) / delta_ms
      let bpm := if bpm < TAP_MIN_BPM then TAP_MIN_BPM else bpm
      let bpm := if bpm > TAP_MAX_BPM then TAP_MAX_BPM else bpm
      some bpm

/-- taptempo_handle_event from src/tap_tempo.c.  `now` is the value of
`time_us_64()` at the call.  Returns `none` if the call would reach the
division by zero inside `calc_bpm` (undefined behaviour), otherwise the
`tap_result_t` and the updated context. -/
def taptempo_handle_event (c : TapCtx) (ev : ButtonEvent) (now : Nat) :
    Option (TapResult × TapCtx) :=
  match c.state with
  | .TT_IDLE =>
    if ev = .HOLD_RELEASE ∨ ev = .LONG_HOLD_RELEASE then
      some (.TAP_EXIT, { c with state := .TT_IDLE })
    else if ev = .CLICK_RELEASE then
      some (.TAP_NONE,
        { c with count := 0, state := .TT_COLLECT, stamp := c.stamp.set 0 now })
    else some (.TAP_NONE, c)
  | .TT_COLLECT =>
    if ev = .HOLD_RELEASE ∨ ev = .LONG_HOLD_RELEASE then
      some (.TAP_EXIT, { c with state := .TT_IDLE })
    else if c.count ≠ 0 ∧
        (now + UINT64_SIZE - c.stamp.getD (if c.count ≠ 0 then c.count - 1 else 0) 0)
            % UINT64_SIZE > TIMEOUT_US then
      some (.TAP_NONE, { c with count := 0, state := .TT_IDLE })
    else if ev = .CLICK_RELEASE then
      let c1 := if c.count < TAP_MAX_TAPS then
          { c with stamp := c.stamp.set c.count now, count := c.count + 1 } else c
      let bpmRes : Option Nat :=
        if 2 ≤ c1.count then
          calc_bpm (c1.stamp.getD 0 0) (c1.stamp.getD (c1.count - 1) 0) (c1.count - 1)
        else some c1.latest_bpm
      match bpmRes with
      | none => none
      | some b =>
        let c2 := { c1 with latest_bpm := b }
        if c2.count = 2 then some (.TAP_PRELIM, c2)
        else if c2.count = 3 then some (.TAP_FINAL, c2)
        else if c2.count = TAP_MAX_TAPS then some (.TAP_FINAL, { c2 with count := 0 })
        else some (.TAP_NONE, c2)
    else some (.TAP_NONE, c)

/-- Run taptempo_handle_event over a list of (event, time) pairs,
collecting the returned results. -/
def taptempo_run (c : TapCtx) : List (ButtonEvent × Nat) → Option (List TapResult × TapCtx)
  | [] => some ([], c)
  | (ev, now) :: rest =>
    match taptempo_handle_event c ev now with
    | none => none
    | some (r, c') =>
      match taptempo_run c' rest with
      | none => none
      | some (rs, cf) => some (r :: rs, cf)

/-! ## Button input classifier (src/src/button.c) -/

def PRESS_DURATION_US : Nat := 500 * 1000
def LONG_PRESS_DURATION_US : Nat := 2000 * 1000
def VERY_LONG_PRESS_DURATION_US : Nat := 5000 * 1000

/-- button_state_t from src/button.c. -/
inductive ButtonState where
  | IDLE
  | PRESS_DOWN
  | HOLD_ACTIVE
  | LONG_HOLD_ACTIVE
  | VERY_LONG_HOLD_ACTIVE
deriving DecidableEq, Repr

/-- button_fsm_t from src/button.c. -/
structure ButtonFsm where
  state : ButtonState
  press_start_us : Nat
deriving DecidableEq, Repr

/-- One call of button_poll_event from src/button.c, with the debounced
button level `current_down` (the result of bootsel_button_debounce) and the
clock value `now_us` passed in explicitly.  All `now_us - press_start_us`
comparisons are `uint64` subtractions, taken modulo 2 ^ 64. -/
def button_poll_event (fsm : ButtonFsm) (current_down : Bool) (now_us : Nat) :
    ButtonEvent × ButtonFsm :=
  let elapsed := (now_us + UINT64_SIZE - fsm.press_start_us) % UINT64_SIZE
  match fsm.state with
  | .IDLE =>
    if current_down then
      (.DOWN, { state := .PRESS_DOWN, press_start_us := now_us })
    else (.NONE, fsm)
  | .PRESS_DOWN =>
    if !current_down then (.CLICK_RELEASE, { fsm with state := .IDLE })
    else if elapsed > LONG_PRESS_DURATION_US then
      (.LONG_HOLD_BEGIN, { fsm with state := .LONG_HOLD_ACTIVE })
    else if elapsed > PRESS_DURATION_US then
      (.HOLD_BEGIN, { fsm with state := .HOLD_ACTIVE })
    else (.NONE, fsm)
  | .HOLD_ACTIVE =>
    if !current_down then (.HOLD_RELEASE, { fsm with state := .IDLE })
    else if elapsed > LONG_PRESS_DURATION_US then
      (.LONG_HOLD_BEGIN, { fsm with state := .LONG_HOLD_ACTIVE })
    else (.NONE, fsm)
  | .LONG_HOLD_ACTIVE =>
    if !current_down then (.LONG_HOLD_RELEASE, { fsm with state := .IDLE })
    else if elapsed > VERY_LONG_PRESS_DURATION_US then
      (.VERY_LONG_HOLD_BEGIN, { fsm with state := .VERY_LONG_HOLD_ACTIVE })
    else (.NONE, fsm)
  | .VERY_LONG_HOLD_ACTIVE =>
    if !current_down then (.VERY_LONG_HOLD_RELEASE, { fsm with state := .IDLE })
    else (.NONE, fsm)

/-! ## Sequencer engine (src/src/main.c) -/

def LOOPER_STEPS_PER_BEAT : Nat := 4
def LOOPER_BEATS_PER_BAR : Nat := 4
def LOOPER_BARS : Nat := 2
def LOOPER_TOTAL_STEPS : Nat := LOOPER_STEPS_PER_BEAT * LOOPER_BEATS_PER_BAR * LOOPER_BARS
def LOOPER_CLICK_DIV : Nat := LOOPER_TOTAL_STEPS / LOOPER_BARS / LOOPER_STEPS_PER_BEAT
def NUM_TRACKS : Nat := 4

/-- looper_state_t from src/main.c. -/
inductive LooperState where
  | WAITING
  | PLAYING
  | RECORDING
  | TRACK_SWITCH
  | TAP_TEMPO
  | CLEAR_ALL
deriving DecidableEq, Repr

/-- looper_timing_t from src/main.c. -/
structure LooperTiming where
  last_step_time_us : Nat
  button_press_start_us : Nat
deriving DecidableEq, Repr

/-- looper_status_t from src/main.c. -/
structure LooperStatus where
  bpm : Nat
  step_duration_ms : Nat
  state : LooperState
  current_track : Nat
  current_step : Nat
  recording_step_count : Nat
  timing : LooperTiming
deriving DecidableEq, Repr

/-- track_t from src/main.c (the human-readable name is dropped; it is
never read by the control logic). -/
structure Track where
  note : Nat
  channel : Nat
  pattern : List Bool
  undo_pattern : List Bool
deriving DecidableEq, Repr

/-- The whole mutable global state of main.c: `looper_status`, the
`tracks` array and the `status_led_on` flag. -/
structure Looper where
  status : LooperStatus
  tracks : List Track
  status_led_on : Bool
deriving DecidableEq, Repr

/-- `tracks[i]` (reads past the 4-entry array never occur in the claims'
domain; out of range the embedding yields an all-empty track). -/
def trackAt (ts : List Track) (i : Nat) : Track := ts.getD i ⟨0, 0, [], []⟩

/-- In-place update of `tracks[i]`. -/
def modifyTrack (lo : Looper) (i : Nat) (f : Track → Track) : Looper :=
  { lo with tracks := lo.tracks.set i (f (trackAt lo.tracks i)) }

def looper_set_status_led (lo : Looper) (b : Bool) : Looper :=
  { lo with status_led_on := b }

/-- looper_next_step from src/main.c. -/
def looper_next_step (lo : Looper) (now_us : Nat) : Looper :=
  { lo with status := { lo.status with
      timing := { lo.status.timing with last_step_time_us := now_us },
      current_step := (lo.status.current_step + 1) % LOOPER_TOTAL_STEPS } }

/-- The delay computed by looper_reset_step_timer from src/main.c:
`handler_delay_ms = (time_us_64() - start_us) / 1000` (uint64), and the
re-arm delay is 1 if that already reaches `step_duration_ms`, else the
remainder of the step duration. -/
def looper_reset_step_timer_delay (step_duration_ms : Nat) (start_us now_us : Nat) : Nat :=
  let handler_delay_ms := ((now_us + UINT64_SIZE - start_us) % UINT64_SIZE) / 1000
  if handler_delay_ms ≥ step_duration_ms then 1
  else step_duration_ms - handler_delay_ms

/-- Round half away from zero, i.e. C `round`, applied to the exact
rational `n / D` (for `D > 0`).  In looper_quantize_step the C code rounds
`(double)delta_us / 1000.0 / step_duration_ms`; on the ranges the claims
quantify over (|delta_us| below 2 ^ 53) the double arithmetic is exact,
so this integer formulation agrees with it. -/
def roundDiv (n : Int) (D : Nat) : Int :=
  if 0 ≤ n then ((2 * n.toNat + D) / (2 * D) : Nat)
  else -(((2 * (-n).toNat + D) / (2 * D) : Nat) : Int)

/-- Reinterpret a `uint64` value as C does when assigning it to an
`int64_t`: values with the top bit set become negative. -/
def toInt64 (u : Nat) : Int :=
  if u % UINT64_SIZE < UINT64_SIZE / 2 then ((u % UINT64_SIZE : Nat) : Int)
  else ((u % UINT64_SIZE : Nat) : Int) - (UINT64_SIZE : Int)

/-- The arithmetic of looper_quantize_step from src/main.c with the
`(int32_t)` cast and the 32-bit `int` addition read as exact integers.
This total function is what looper_handle_button_event uses for the
CLICK_RELEASE pattern write (none of the claims about that handler
depend on the index value); `looper_quantize_step` below wraps it with
the definedness guards and is what the quantizer claims are about.  The
final `.tmod` is C truncated remainder on `int`, and the assignment of
that value to the `uint8_t` return is reduction modulo 256. -/
def looper_quantize_step_val (button_press_start_us last_step_time_us : Nat)
    (current_step step_duration_ms : Nat) : Nat :=
  let delta_us : Int :=
    toInt64 ((button_press_start_us + UINT64_SIZE - last_step_time_us) % UINT64_SIZE)
  let relative_steps : Int := roundDiv delta_us (1000 * step_duration_ms)
  let previous_step : Nat := (current_step + LOOPER_TOTAL_STEPS - 1) % LOOPER_TOTAL_STEPS
  let estimated_step : Int :=
    (previous_step + relative_steps + LOOPER_TOTAL_STEPS).tmod LOOPER_TOTAL_STEPS
  (estimated_step % 256).toNat

/-- looper_quantize_step from src/main.c, with its undefined behaviour
made explicit.  `delta_us` is the `uint64` stamp difference read back as
`int64_t`.  The C code computes
`relative_steps = (int32_t)round((double)delta_us / 1000.0 / step_duration_ms)`
and then `(previous_step + relative_steps + LOOPER_TOTAL_STEPS) % LOOPER_TOTAL_STEPS`
in 32-bit `int` arithmetic.  The embedding performs the rounding exactly
on the rational `delta_us / (1000 * step_duration_ms)` and returns
`none` when the C computation has no defined result it could model:
when `2 ^ 53 ≤ |delta_us|` (the conversion of `delta_us` to double is no
longer exact, so the embedding does not model the result), when the
rounded value falls outside `int32_t` (the C cast is undefined
behaviour), and when `previous_step + relative_steps + LOOPER_TOTAL_STEPS`
falls outside 32-bit `int` (the C addition overflows: undefined
behaviour).  Otherwise it returns `some` of the C result — the truncated
`%` followed by the `uint8_t` return conversion.  Inside the `some`
domain the exact rounding can still differ from the correctly rounded
double chain by at most one step, when the exact quotient lies within
double rounding error of a half-integer; the theorems below either use
exact multiples of the step duration, where each double division's true
quotient is representable and the chain is exact, or conclude only that
the result is in range, which a one-step difference does not affect. -/
def looper_quantize_step (button_press_start_us last_step_time_us : Nat)
    (current_step step_duration_ms : Nat) : Option Nat :=
  let delta_us : Int :=
    toInt64 ((button_press_start_us + UINT64_SIZE - last_step_time_us) % UINT64_SIZE)
  let relative_steps : Int := roundDiv delta_us (1000 * step_duration_ms)
  let previous_step : Nat := (current_step + LOOPER_TOTAL_STEPS - 1) % LOOPER_TOTAL_STEPS
  let estimated_sum : Int := previous_step + relative_steps + LOOPER_TOTAL_STEPS
  if 2 ^ 53 ≤ delta_us.natAbs then none
  else if relative_steps < -(2 ^ 31) ∨ (2 ^ 31 : Int) ≤ relative_steps then none
  else if estimated_sum < -(2 ^ 31) ∨ (2 ^ 31 : Int) ≤ estimated_sum then none
  else some ((estimated_sum.tmod LOOPER_TOTAL_STEPS % 256).toNat)

/-- looper_clear_all_tracks from src/main.c: memset every track's
`pattern` (and only `pattern`) to all-false. -/
def looper_clear_all_tracks (ts : List Track) : List Track :=
  ts.map fun t => { t with pattern := List.replicate LOOPER_TOTAL_STEPS false }

/-- Net effect of looper_output_notes on `status_led_on`: the loop's last
write for index `current_track` leaves the LED equal to that track's
pattern bit at `current_step`. -/
def looper_output_notes_led (lo : Looper) : Bool :=
  (trackAt lo.tracks lo.status.current_track).pattern.getD lo.status.current_step false

/-- looper_process_state from src/main.c — one timer tick.  `connection`
is `ble_midi_is_connected()` and `start_us` the `time_us_64()` taken at
entry.  Note emission and printing are external side effects and carry no
engine state; the LED writes are kept. -/
def looper_process_state (lo : Looper) (connection : Bool) (start_us : Nat) : Looper :=
  let lo := if !connection then
      { lo with status := { lo.status with state := .WAITING } } else lo
  match lo.status.state with
  | .WAITING =>
    let lo := if connection then
        { lo with status := { lo.status with state := .PLAYING, current_step := 0 } }
      else lo
    let lo := looper_set_status_led lo
      ((lo.status.current_step % (LOOPER_CLICK_DIV * 4)) == 0)
    looper_next_step lo start_us
  | .PLAYING =>
    let lo := looper_set_status_led lo (looper_output_notes_led lo)
    looper_next_step lo start_us
  | .RECORDING =>
    let lo := looper_set_status_led lo true
    let lo := looper_next_step lo start_us
    let lo := { lo with status := { lo.status with
        recording_step_count := (lo.status.recording_step_count + 1) % 256 } }
    if lo.status.recording_step_count ≥ LOOPER_TOTAL_STEPS then
      let lo := looper_set_status_led lo false
      { lo with status := { lo.status with state := .PLAYING } }
    else lo
  | .TRACK_SWITCH =>
    let lo := { lo with status := { lo.status with
        current_track := (lo.status.current_track + 1) % NUM_TRACKS } }
    let lo := looper_next_step lo start_us
    { lo with status := { lo.status with state := .PLAYING } }
  | .TAP_TEMPO =>
    let lo := looper_set_status_led lo
      ((lo.status.current_step % LOOPER_CLICK_DIV) == 0)
    looper_next_step lo start_us
  | .CLEAR_ALL =>
    let lo := { lo with tracks := looper_clear_all_tracks lo.tracks }
    let lo := { lo with status := { lo.status with current_track := 0 } }
    let lo := looper_next_step lo start_us
    { lo with status := { lo.status with state := .PLAYING } }

/-- looper_handle_button_event from src/main.c.  `now_us` is the
`time_us_64()` read in the DOWN branch.  The memcpy/memset calls copy the
full `LOOPER_TOTAL_STEPS`-byte pattern arrays. -/
def looper_handle_button_event (lo : Looper) (event : ButtonEvent) (now_us : Nat) : Looper :=
  let t := lo.status.current_track
  match event with
  | .DOWN =>
    let lo := { lo with status := { lo.status with
        timing := { lo.status.timing with button_press_start_us := now_us } } }
    modifyTrack lo t fun tr => { tr with undo_pattern := tr.pattern }
  | .CLICK_RELEASE =>
    let lo :=
      if lo.status.state ≠ .RECORDING then
        let lo := { lo with status := { lo.status with
            recording_step_count := 0, state := .RECORDING } }
        modifyTrack lo t fun tr =>
          { tr with pattern := List.replicate LOOPER_TOTAL_STEPS false }
      else lo
    let quantized_step := looper_quantize_step_val
      lo.status.timing.button_press_start_us lo.status.timing.last_step_time_us
      lo.status.current_step lo.status.step_duration_ms
    modifyTrack lo t fun tr => { tr with pattern := tr.pattern.set quantized_step true }
  | .HOLD_RELEASE =>
    let lo := modifyTrack lo t fun tr => { tr with pattern := tr.undo_pattern }
    { lo with status := { lo.status with state := .TRACK_SWITCH } }
  | .LONG_HOLD_RELEASE =>
    { lo with status := { lo.status with state := .TAP_TEMPO } }
  | .VERY_LONG_HOLD_RELEASE =>
    { lo with status := { lo.status with state := .CLEAR_ALL } }
  | _ => lo

/-- Fold looper_process_state over a list of tick start times. -/
def looper_run_ticks (lo : Looper) (connection : Bool) : List Nat → Looper
  | [] => lo
  | now :: rest => looper_run_ticks (looper_process_state lo connection now) connection rest

/-- Apply a CLICK_RELEASE button event once for each entry of `times`
(the CLICK_RELEASE branch never reads the clock; the times only name the
polls). -/
def looper_run_clicks (lo : Looper) : List Nat → Looper
  | [] => lo
  | now :: rest => looper_run_clicks (looper_handle_button_event lo .CLICK_RELEASE now) rest

/-- The initial global state of main.c: `looper_status` zero-initialised
except `bpm = 120` and state WAITING, then `looper_update_bpm(120)` sets
`step_duration_ms = 60000 / (120 * 4) = 125`; four tracks with empty
patterns. -/
def looper0 : Looper :=
  { status :=
      { bpm := 120, step_duration_ms := 125, state := .WAITING,
        current_track := 0, current_step := 0, recording_step_count := 0,
        timing := { last_step_time_us := 0, button_press_start_us := 0 } },
    tracks :=
      [ { note := 36, channel := 9, pattern := List.replicate 32 false,
          undo_pattern := List.replicate 32 false },
        { note := 38, channel := 9, pattern := List.replicate 32 false,
          undo_pattern := List.replicate 32 false },
        { note := 42, channel := 9, pattern := List.replicate 32 false,
          undo_pattern := List.replicate 32 false },
        { note := 46, channel := 9, pattern := List.replicate 32 false,
          undo_pattern := List.replicate 32 false } ],
    status_led_on := false }

/-! ## Helper lemmas -/

lemma total_steps_eq : LOOPER_TOTAL_STEPS = 32 := rfl

lemma toInt64_small (u : Nat) (h : u < UINT64_SIZE / 2) : toInt64 u = (u : Int) := by
  have hu : u % UINT64_SIZE = u := Nat.mod_eq_of_lt (by simp [UINT64_SIZE] at h ⊢; omega)
  simp [toInt64, hu, h]

lemma roundDiv_mul (k D : Nat) (hD : 0 < D) : roundDiv ((k * D : Nat) : Int) D = k := by
  simp only [roundDiv, Int.toNat_natCast]
  rw [if_pos (Int.natCast_nonneg _)]
  norm_cast
  rw [show 2 * (k * D) + D = (2 * k + 1) * D by ring, Nat.mul_div_mul_right _ _ hD]
  omega

lemma roundDiv_natCast (m D : Nat) : roundDiv (m : Int) D = ((2 * m + D) / (2 * D) : Nat) := by
  simp only [roundDiv, Int.toNat_natCast]
  rw [if_pos (Int.natCast_nonneg _)]

lemma natCast_tmod32 (A : Nat) : (((A : Int).tmod 32) % 256).toNat = A % 32 := by
  have h := Int.ofNat_tmod A 32
  push_cast at h
  rw [← h]
  omega

lemma looper_quantize_step_some_eq_val (b l cs d i : Nat)
    (h : looper_quantize_step b l cs d = some i) :
    looper_quantize_step_val b l cs d = i := by
  simp only [looper_quantize_step] at h
  simp only [looper_quantize_step_val]
  split_ifs at h <;> simp_all

lemma trackAt_set (ts : List Track) (i j : Nat) (tr : Track) :
    trackAt (ts.set i tr) j = if i = j ∧ i < ts.length then tr else trackAt ts j := by
  simp only [trackAt, List.getD_eq_getElem?_getD, List.getElem?_set]
  by_cases hij : i = j
  · subst hij
    by_cases hlen : i < ts.length
    · simp [hlen]
    · simp [hlen, List.getElem?_eq_none (by omega : ts.length ≤ i)]
  · simp [hij]

lemma looper_tick_recording (lo : Looper) (now : Nat) (hst : lo.status.state = .RECORDING)
    (hc : lo.status.recording_step_count < 32) :
    (looper_process_state lo true now).status.recording_step_count
      = lo.status.recording_step_count + 1
    ∧ (looper_process_state lo true now).status.state
        = (if lo.status.recording_step_count + 1 = 32 then .PLAYING else .RECORDING)
    ∧ (looper_process_state lo true now).status_led_on
        = (if lo.status.recording_step_count + 1 = 32 then false else true) := by
  simp only [looper_process_state, Bool.not_true, if_neg (by simp : ¬ (false = true)), hst]
  simp only [looper_set_status_led, looper_next_step, total_steps_eq]
  have hmod : (lo.status.recording_step_count + 1) % 256 = lo.status.recording_step_count + 1 :=
    Nat.mod_eq_of_lt (by omega)
  simp only [hmod]
  by_cases h32 : lo.status.recording_step_count + 1 = 32
  · simp [h32]
  · simp only [if_neg h32]
    rw [if_neg (by omega)]
    simp [hst]

lemma looper_run_ticks_recording (ts : List Nat) : ∀ lo : Looper,
    lo.status.state = .RECORDING →
    lo.status.recording_step_count < 32 →
    lo.status.recording_step_count + ts.length ≤ 32 →
    (looper_run_ticks lo true ts).status.recording_step_count
      = lo.status.recording_step_count + ts.length
    ∧ (looper_run_ticks lo true ts).status.state
        = (if lo.status.recording_step_count + ts.length = 32 then .PLAYING else .RECORDING)
    ∧ (lo.status.recording_step_count + ts.length = 32 →
        (looper_run_ticks lo true ts).status_led_on = false) := by
  induction ts with
  | nil =>
    intro lo hst hc _
    refine ⟨?_, ?_, ?_⟩
    · simp [looper_run_ticks]
    · simp only [looper_run_ticks, List.length_nil, Nat.add_zero]
      rw [if_neg (by omega)]
      exact hst
    · intro h
      simp only [List.length_nil] at h
      omega
  | cons now rest ih =>
    intro lo hst hc hle
    simp only [List.length_cons] at hle ⊢
    simp only [looper_run_ticks]
    have htick := looper_tick_recording lo now hst hc
    by_cases h32 : lo.status.recording_step_count + 1 = 32
    · have hrest : rest = [] := List.length_eq_zero.mp (by omega)
      subst hrest
      simp only [looper_run_ticks, List.length_nil, Nat.zero_add]
      refine ⟨?_, ?_, ?_⟩
      · rw [htick.1]
      · rw [htick.2.1]
      · intro h
        rw [htick.2.2, if_pos h32]
    · have ih2 := ih (looper_process_state lo true now)
        (by rw [htick.2.1, if_neg h32]) (by rw [htick.1]; omega)
        (by rw [htick.1]; omega)
      refine ⟨?_, ?_, ?_⟩
      · rw [ih2.1, htick.1]; omega
      · rw [ih2.2.1, htick.1]
        have he : lo.status.recording_step_count + 1 + rest.length
            = lo.status.recording_step_count + (rest.length + 1) := by omega
        rw [he]
      · intro h
        apply ih2.2.2
        rw [htick.1]
        omega

lemma modifyTrack_undo (lo : Looper) (t : Nat) (f : Track → Track)
    (hf : ∀ tr, (f tr).undo_pattern = tr.undo_pattern) (i : Nat) :
    (trackAt (modifyTrack lo t f).tracks i).undo_pattern
      = (trackAt lo.tracks i).undo_pattern := by
  simp only [modifyTrack]
  rw [trackAt_set]
  split_ifs with h
  · obtain ⟨he, _⟩ := h
    rw [hf, he]
  · rfl

lemma click_inv (lo : Looper) (n : Nat) :
    (looper_handle_button_event lo .CLICK_RELEASE n).status.current_track
      = lo.status.current_track
    ∧ (looper_handle_button_event lo .CLICK_RELEASE n).tracks.length = lo.tracks.length
    ∧ ∀ i, (trackAt (looper_handle_button_event lo .CLICK_RELEASE n).tracks i).undo_pattern
        = (trackAt lo.tracks i).undo_pattern := by
  simp only [looper_handle_button_event]
  split_ifs with h
  · refine ⟨rfl, by simp [modifyTrack], ?_⟩
    intro i
    simp [modifyTrack_undo]
  · refine ⟨rfl, by simp [modifyTrack], ?_⟩
    intro i
    simp [modifyTrack_undo]

lemma run_clicks_inv (times : List Nat) : ∀ lo : Looper,
    (looper_run_clicks lo times).status.current_track = lo.status.current_track
    ∧ (looper_run_clicks lo times).tracks.length = lo.tracks.length
    ∧ ∀ i, (trackAt (looper_run_clicks lo times).tracks i).undo_pattern
        = (trackAt lo.tracks i).undo_pattern := by
  induction times with
  | nil => intro lo; exact ⟨rfl, rfl, fun i => rfl⟩
  | cons n rest ih =>
    intro lo
    simp only [looper_run_clicks]
    have h1 := click_inv lo n
    have h2 := ih (looper_handle_button_event lo .CLICK_RELEASE n)
    exact ⟨h2.1.trans h1.1, h2.2.1.trans h1.2.1,
      fun i => (h2.2.2 i).trans (h1.2.2 i)⟩

/-! ## Claim C1 -/

/-- C1 (counterexample): starting from the idle tap context, two
CLICK_RELEASE events 500 ms apart do NOT yield a Prelim result on the
second event: the first event only enters COLLECT (count stays 0) and the
second event records the first counted stamp, so both return TAP_NONE,
refuting the claim that the second tap returns Prelim with BPM 120. -/
theorem c1_counterexample :
    (taptempo_run tapCtx0 [(.CLICK_RELEASE, 0), (.CLICK_RELEASE, 500000)]).map
      (fun p => p.1) = some [.TAP_NONE, .TAP_NONE]
    ∧ TapResult.TAP_NONE ≠ TapResult.TAP_PRELIM := by decide

/-- C1 (amended): for CLICK_RELEASE events at exact 500 ms spacing from
the idle context, the 1st and 2nd events return None, the 3rd returns
Prelim with BPM 120, the 4th and 5th return Final with BPM 120, and after
the 5th event the tap count is reset to 0 while the stored BPM (the value
taptempo_get_bpm returns) is still 120. -/
theorem c1_tap_trace :
    taptempo_run tapCtx0
      [(.CLICK_RELEASE, 0), (.CLICK_RELEASE, 500000), (.CLICK_RELEASE, 1000000),
       (.CLICK_RELEASE, 1500000), (.CLICK_RELEASE, 2000000)]
      = some ([.TAP_NONE, .TAP_NONE, .TAP_PRELIM, .TAP_FINAL, .TAP_FINAL],
        { state := .TT_COLLECT, stamp := [500000, 1000000, 1500000, 2000000],
          count := 0, latest_bpm := 120 }) := by decide

/-! ## Claim C2 -/

/-- C2 (counterexample): the claim quantifies over every k ≥ 0, but at
k = 10^10 whole steps of the default 125 ms duration the rounded value
does not fit in `int32_t`, so the C cast is undefined behaviour and the
program does not compute the claimed index: the embedding returns `none`
rather than `some ((previous_step + k) mod TOTAL_STEPS)`. -/
theorem c2_counterexample :
    looper_quantize_step (0 + 10000000000 * (1000 * 125)) 0 0 125 = none
    ∧ (none : Option Nat)
        ≠ some ((((0 + LOOPER_TOTAL_STEPS - 1) % LOOPER_TOTAL_STEPS) + 10000000000)
            % LOOPER_TOTAL_STEPS) := by decide

/-- C2 (amended): if the press timestamp is exactly `last_step_time_us`
plus `k` whole step durations (in microseconds), with k at most
2^31 - 64 (so the int32 cast and the 32-bit int addition are defined)
and the offset below 2^53 microseconds (so the double division chain is
exact), looper_quantize_step returns exactly
`some ((previous_step + k) mod TOTAL_STEPS)` with
`previous_step = (current_step - 1) mod TOTAL_STEPS` (written as the C
code computes it, `(current_step + TOTAL_STEPS - 1) % TOTAL_STEPS`). -/
theorem c2_quantize_exact (l k d step : Nat) (hstep : step < LOOPER_TOTAL_STEPS) (hd : 0 < d)
    (hk : k ≤ 2147483584) (hfit : k * (1000 * d) < 2 ^ 53)
    (hl : l + k * (1000 * d) < UINT64_SIZE) :
    looper_quantize_step (l + k * (1000 * d)) l step d
      = some ((((step + LOOPER_TOTAL_STEPS - 1) % LOOPER_TOTAL_STEPS) + k)
          % LOOPER_TOTAL_STEPS) := by
  have h1 : (l + k * (1000 * d) + UINT64_SIZE - l) % UINT64_SIZE = k * (1000 * d) := by
    simp only [UINT64_SIZE] at *
    omega
  have h2 : toInt64 (k * (1000 * d)) = ((k * (1000 * d) : Nat) : Int) := by
    apply toInt64_small
    simp only [UINT64_SIZE]
    omega
  simp only [looper_quantize_step, h1, h2]
  rw [roundDiv_mul k (1000 * d) (by omega)]
  rw [total_steps_eq] at *
  rw [if_neg (by simp only [Int.natAbs_ofNat]; omega)]
  rw [if_neg (by push_cast; omega)]
  rw [if_neg (by
    have hprev : (step + 32 - 1) % 32 < 32 := by omega
    push_cast
    omega)]
  congr 1
  norm_cast
  rw [natCast_tmod32]
  omega

/-- C2 (witness): with last step time 0, k = 3 offsets of a 125 ms step
and current step 0, the quantizer lands on step (31 + 3) mod 32 = 2. -/
theorem c2_quantize_exact_witness :
    (0 < LOOPER_TOTAL_STEPS ∧ 0 < 125 ∧ 3 ≤ 2147483584 ∧ 3 * (1000 * 125) < 2 ^ 53
      ∧ 0 + 3 * (1000 * 125) < UINT64_SIZE)
    ∧ looper_quantize_step (0 + 3 * (1000 * 125)) 0 0 125
        = some ((((0 + LOOPER_TOTAL_STEPS - 1) % LOOPER_TOTAL_STEPS) + 3)
            % LOOPER_TOTAL_STEPS) :=
  ⟨by decide,
    c2_quantize_exact 0 3 125 0 (by decide) (by decide) (by decide) (by decide) (by decide)⟩

/-! ## Claim C3 -/

/-- C3: calc_bpm at two stamps 100 microseconds apart (intervals = 1)
reaches a division by zero, because `delta_ms = (100 + 500) / 1000 = 0`
while only `delta_us == 0` is guarded: the embedding returns `none`
(undefined behaviour in the C code).  Two identical stamps, by contrast,
do return the minimum BPM as the claim says. -/
theorem c3_calc_bpm_divzero :
    calc_bpm 0 100 1 = none ∧ calc_bpm 5 5 1 = some TAP_MIN_BPM := by decide

/-! ## Claim C4 -/

/-- C4 (counterexample): a press timestamp 10^7 microseconds BEFORE the
last step time, with current step 1 and a 100 ms step, makes the C `%`
produce a negative remainder (-68 tmod 32 = -4) whose conversion to
`uint8_t` is 252, which is not below TOTAL_STEPS = 32: the claimed
in-bounds property fails for timestamps in the other order (every
definedness guard holds at this input, so the C computation is defined
and really produces 252). -/
theorem c4_counterexample :
    looper_quantize_step 0 10000000 1 100 = some 252
    ∧ ¬ (252 : Nat) < LOOPER_TOTAL_STEPS := by decide

/-- C4 (amended): when the press timestamp is at or after the last step
time, with the offset below 2^53 microseconds (inside the range the
embedding models the double arithmetic) and at most
1000 * step_duration_ms * (2^31 - 128) microseconds (which keeps the
rounded step offset and the 32-bit int sum inside int32_t, so the C
computation is defined), looper_quantize_step returns an index in
[0, TOTAL_STEPS), keeping the pattern write in bounds.  For timestamps
in the other order the result can leave the range (the counterexample),
and outside these bounds the C computation is undefined behaviour, which
the embedding reports as `none`. -/
theorem c4_quantize_in_bounds (b l step d : Nat) (hstep : step < LOOPER_TOTAL_STEPS)
    (hd : 0 < d) (hbl : l ≤ b) (h53 : b - l < 2 ^ 53)
    (hfit : b - l ≤ 1000 * d * 2147483520) :
    ∃ i, looper_quantize_step b l step d = some i ∧ i < LOOPER_TOTAL_STEPS := by
  have h1 : (b + UINT64_SIZE - l) % UINT64_SIZE = b - l := by
    simp only [UINT64_SIZE] at *
    omega
  have h2 : toInt64 (b - l) = ((b - l : Nat) : Int) := by
    apply toInt64_small
    simp only [UINT64_SIZE]
    omega
  simp only [looper_quantize_step, h1, h2]
  rw [roundDiv_natCast]
  rw [total_steps_eq] at *
  obtain ⟨r, hrdef⟩ : ∃ r, (2 * (b - l) + 1000 * d) / (2 * (1000 * d)) = r := ⟨_, rfl⟩
  rw [hrdef]
  have hrel : r < 2147483521 := by
    rw [← hrdef, Nat.div_lt_iff_lt_mul (by omega)]
    omega
  have hprev : (step + 32 - 1) % 32 < 32 := by omega
  rw [if_neg (by simp only [Int.natAbs_ofNat]; omega)]
  rw [if_neg (by omega)]
  rw [if_neg (by omega)]
  refine ⟨((step + 32 - 1) % 32 + r + 32) % 32, ?_, by omega⟩
  congr 1
  norm_cast
  rw [natCast_tmod32]

/-- C4 (witness): a press 30 ms after the last step time with a 125 ms
step lands in bounds. -/
theorem c4_quantize_in_bounds_witness :
    (0 < LOOPER_TOTAL_STEPS ∧ 0 < 125 ∧ 100 ≤ 30100 ∧ 30100 - 100 < 2 ^ 53
      ∧ 30100 - 100 ≤ 1000 * 125 * 2147483520)
    ∧ ∃ i, looper_quantize_step 30100 100 0 125 = some i ∧ i < LOOPER_TOTAL_STEPS :=
  ⟨by decide,
    c4_quantize_in_bounds 30100 100 0 125 (by decide) (by decide) (by decide) (by decide)
      (by decide)⟩

/-! ## Claim C5 -/

/-- C5: a DOWN event snapshots the current track's pattern P into its
undo pattern; after any sequence of CLICK_RELEASE edits, a HOLD_RELEASE
restores the current track's pattern to exactly P and sets the state to
TRACK_SWITCH; the next (connected) tick then increments current_track by
1 mod NUM_TRACKS and sets the state to PLAYING. -/
theorem c5_hold_release_undo (lo lo1 lo2 lo3 lo4 : Looper) (n0 n1 n2 : Nat) (times : List Nat)
    (hlen : lo.tracks.length = NUM_TRACKS) (htr : lo.status.current_track < NUM_TRACKS)
    (h1 : lo1 = looper_handle_button_event lo .DOWN n0)
    (h2 : lo2 = looper_run_clicks lo1 times)
    (h3 : lo3 = looper_handle_button_event lo2 .HOLD_RELEASE n1)
    (h4 : lo4 = looper_process_state lo3 true n2) :
    (trackAt lo3.tracks lo.status.current_track).pattern
        = (trackAt lo.tracks lo.status.current_track).pattern
    ∧ lo3.status.state = .TRACK_SWITCH
    ∧ lo4.status.current_track = (lo.status.current_track + 1) % NUM_TRACKS
    ∧ lo4.status.state = .PLAYING := by
  have hltlen : lo.status.current_track < lo.tracks.length := by omega
  have hd_track : lo1.status.current_track = lo.status.current_track := by
    rw [h1]; rfl
  have hd_len : lo1.tracks.length = lo.tracks.length := by
    rw [h1]; simp [looper_handle_button_event, modifyTrack]
  have hd_undo : (trackAt lo1.tracks lo.status.current_track).undo_pattern
      = (trackAt lo.tracks lo.status.current_track).pattern := by
    rw [h1]
    simp only [looper_handle_button_event, modifyTrack]
    rw [trackAt_set]
    rw [if_pos ⟨rfl, by simpa using hltlen⟩]
  have hc := run_clicks_inv times lo1
  have hc_track : lo2.status.current_track = lo.status.current_track := by
    rw [h2, hc.1, hd_track]
  have hc_len : lo2.tracks.length = lo.tracks.length := by
    rw [h2, hc.2.1, hd_len]
  have hc_undo : (trackAt lo2.tracks lo.status.current_track).undo_pattern
      = (trackAt lo.tracks lo.status.current_track).pattern := by
    rw [h2, hc.2.2, hd_undo]
  have hh_pattern : (trackAt lo3.tracks lo.status.current_track).pattern
      = (trackAt lo.tracks lo.status.current_track).pattern := by
    rw [h3]
    simp only [looper_handle_button_event, modifyTrack, hc_track]
    rw [trackAt_set, if_pos ⟨rfl, by omega⟩]
    exact hc_undo
  have hh_state : lo3.status.state = LooperState.TRACK_SWITCH := by
    rw [h3]; rfl
  have hh_track : lo3.status.current_track = lo.status.current_track := by
    rw [h3, ← hc_track]; rfl
  refine ⟨hh_pattern, hh_state, ?_, ?_⟩
  · rw [h4]
    simp [looper_process_state, looper_next_step, hh_state, hh_track]
  · rw [h4]
    simp [looper_process_state, looper_next_step, hh_state]

/-- C5 (witness): the undo round trip at the initial looper with one
interposed CLICK_RELEASE edit. -/
theorem c5_hold_release_undo_witness :
    (looper0.tracks.length = NUM_TRACKS ∧ looper0.status.current_track < NUM_TRACKS)
    ∧ ((trackAt (looper_handle_button_event
          (looper_run_clicks (looper_handle_button_event looper0 .DOWN 0) [5])
          .HOLD_RELEASE 0).tracks looper0.status.current_track).pattern
        = (trackAt looper0.tracks looper0.status.current_track).pattern
      ∧ (looper_handle_button_event
          (looper_run_clicks (looper_handle_button_event looper0 .DOWN 0) [5])
          .HOLD_RELEASE 0).status.state = .TRACK_SWITCH
      ∧ (looper_process_state (looper_handle_button_event
          (looper_run_clicks (looper_handle_button_event looper0 .DOWN 0) [5])
          .HOLD_RELEASE 0) true 9).status.current_track
          = (looper0.status.current_track + 1) % NUM_TRACKS
      ∧ (looper_process_state (looper_handle_button_event
          (looper_run_clicks (looper_handle_button_event looper0 .DOWN 0) [5])
          .HOLD_RELEASE 0) true 9).status.state = .PLAYING) :=
  ⟨⟨by decide, by decide⟩,
    c5_hold_release_undo looper0 _ _ _ _ 0 0 9 [5] (by decide) (by decide) rfl rfl rfl rfl⟩

/-! ## Claim C6 -/

/-- C6: a CLICK_RELEASE in any non-RECORDING state starts a recording
session with recording_step_count = 0; from a RECORDING state with count
0, each connected tick increments the count by exactly 1, and the state
is PLAYING (with the LED indicator cleared) after exactly TOTAL_STEPS
ticks — after fewer ticks it is still RECORDING. -/
theorem c6_recording_autostop (lo0 lo : Looper) (n0 : Nat) (ts : List Nat)
    (h0 : lo0.status.state ≠ .RECORDING)
    (hst : lo.status.state = .RECORDING) (hc : lo.status.recording_step_count = 0)
    (hlen : ts.length ≤ LOOPER_TOTAL_STEPS) :
    ((looper_handle_button_event lo0 .CLICK_RELEASE n0).status.recording_step_count = 0
      ∧ (looper_handle_button_event lo0 .CLICK_RELEASE n0).status.state = .RECORDING)
    ∧ (looper_run_ticks lo true ts).status.recording_step_count = ts.length
    ∧ ((looper_run_ticks lo true ts).status.state
        = if ts.length = LOOPER_TOTAL_STEPS then LooperState.PLAYING else LooperState.RECORDING)
    ∧ (ts.length = LOOPER_TOTAL_STEPS → (looper_run_ticks lo true ts).status_led_on = false) := by
  rw [total_steps_eq] at *
  have hrun := looper_run_ticks_recording ts lo hst (by omega) (by omega)
  refine ⟨?_, ?_, ?_, ?_⟩
  · simp [looper_handle_button_event, if_pos h0, modifyTrack]
  · rw [hrun.1, hc]
    omega
  · rw [hrun.2.1, hc]
    simp
  · intro h
    exact hrun.2.2 (by omega)

/-- C6 (witness): from the initial looper put into RECORDING with count
0, running exactly 32 ticks reaches PLAYING with the LED off. -/
theorem c6_recording_autostop_witness :
    (looper0.status.state ≠ LooperState.RECORDING
      ∧ { looper0 with status := { looper0.status with
            state := .RECORDING } }.status.state = LooperState.RECORDING
      ∧ { looper0 with status := { looper0.status with
            state := .RECORDING } }.status.recording_step_count = 0
      ∧ (List.replicate 32 0).length ≤ LOOPER_TOTAL_STEPS)
    ∧ (((looper_handle_button_event looper0 .CLICK_RELEASE 0).status.recording_step_count = 0
        ∧ (looper_handle_button_event looper0 .CLICK_RELEASE 0).status.state = .RECORDING)
      ∧ (looper_run_ticks { looper0 with status := { looper0.status with
            state := .RECORDING } } true (List.replicate 32 0)).status.recording_step_count
          = (List.replicate 32 0).length
      ∧ ((looper_run_ticks { looper0 with status := { looper0.status with
            state := .RECORDING } } true (List.replicate 32 0)).status.state
          = if (List.replicate 32 0).length = LOOPER_TOTAL_STEPS
            then LooperState.PLAYING else LooperState.RECORDING)
      ∧ ((List.replicate 32 0).length = LOOPER_TOTAL_STEPS →
          (looper_run_ticks { looper0 with status := { looper0.status with
            state := .RECORDING } } true (List.replicate 32 0)).status_led_on = false)) :=
  ⟨⟨by decide, by decide, by decide, by decide⟩,
    c6_recording_autostop looper0
      { looper0 with status := { looper0.status with state := .RECORDING } }
      0 (List.replicate 32 0) (by decide) (by decide) (by decide) (by decide)⟩

/-! ## Claim C7 -/

/-- C7 (counterexample): a tick taken in WAITING with the connection up
first resets current_step to 0 and then advances it, so from
current_step = 5 the next step is 1, not (5 + 1) mod 32 = 6 — the claim
that every tick advances the step by exactly 1 mod TOTAL_STEPS in every
state fails for a connected WAITING tick. -/
theorem c7_counterexample :
    (looper_process_state
        { looper0 with status := { looper0.status with current_step := 5 } }
        true 0).status.current_step = 1
    ∧ ((5 + 1) % LOOPER_TOTAL_STEPS = 6)
    ∧ (1 : Nat) ≠ 6
    ∧ { looper0 with status := { looper0.status with
          current_step := 5 } }.status.state = LooperState.WAITING := by decide

/-- C7 (amended): every tick sets last_step_time_us to the tick's start
time and leaves current_step in [0, TOTAL_STEPS); the step advances by
exactly 1 mod TOTAL_STEPS in every state EXCEPT a WAITING tick with the
connection up, which resets the step to 0 before advancing (yielding 1);
button events never change current_step. -/
theorem c7_tick_advances (lo : Looper) (conn : Bool) (now : Nat) (ev : ButtonEvent) (t : Nat)
    (hstep : lo.status.current_step < LOOPER_TOTAL_STEPS) :
    (looper_process_state lo conn now).status.timing.last_step_time_us = now
    ∧ ((looper_process_state lo conn now).status.current_step
        = if lo.status.state = .WAITING ∧ conn = true then 1
          else (lo.status.current_step + 1) % LOOPER_TOTAL_STEPS)
    ∧ (looper_process_state lo conn now).status.current_step < LOOPER_TOTAL_STEPS
    ∧ (looper_handle_button_event lo ev t).status.current_step = lo.status.current_step := by
  refine ⟨?_, ?_, ?_, ?_⟩
  · cases conn <;>
      rcases h : lo.status.state <;>
        simp [looper_process_state, looper_next_step, looper_set_status_led, h] <;>
          split_ifs <;> rfl
  · cases conn <;>
      rcases h : lo.status.state <;>
        simp [looper_process_state, looper_next_step, looper_set_status_led, h,
          total_steps_eq] <;>
          split_ifs <;> rfl
  · cases conn <;>
      rcases h : lo.status.state <;>
        simp [looper_process_state, looper_next_step, looper_set_status_led, h,
          total_steps_eq] <;>
          first
          | omega
          | (split_ifs <;> simp <;> omega)
  · cases ev <;> simp [looper_handle_button_event, modifyTrack] <;> split_ifs <;> simp

/-- C7 (witness): one connected PLAYING tick from the initial looper
placed in PLAYING at step 0. -/
theorem c7_tick_advances_witness :
    { looper0 with status := { looper0.status with
        state := .PLAYING } }.status.current_step < LOOPER_TOTAL_STEPS
    ∧ ((looper_process_state { looper0 with status := { looper0.status with
          state := .PLAYING } } true 77).status.timing.last_step_time_us = 77
      ∧ ((looper_process_state { looper0 with status := { looper0.status with
            state := .PLAYING } } true 77).status.current_step
          = if { looper0 with status := { looper0.status with
                state := .PLAYING } }.status.state = .WAITING ∧ true = true then 1
            else ({ looper0 with status := { looper0.status with
                state := .PLAYING } }.status.current_step + 1) % LOOPER_TOTAL_STEPS)
      ∧ (looper_process_state { looper0 with status := { looper0.status with
            state := .PLAYING } } true 77).status.current_step < LOOPER_TOTAL_STEPS
      ∧ (looper_handle_button_event { looper0 with status := { looper0.status with
            state := .PLAYING } } .DOWN 3).status.current_step
          = { looper0 with status := { looper0.status with
            state := .PLAYING } }.status.current_step) :=
  ⟨by decide,
    c7_tick_advances { looper0 with status := { looper0.status with state := .PLAYING } }
      true 77 .DOWN 3 (by decide)⟩

/-! ## Claim C8 -/

/-- C8 (counterexample): a tick that begins with state CLEAR_TRACKS but
with the transport disconnected is forced to WAITING and does NOT clear
the patterns — so the claimed unconditional transition to PLAYING (with
all patterns zeroed) fails when the connection is down: the step-3 bit of
track 0 survives the tick. -/
theorem c8_counterexample :
    (looper_process_state
        { looper0 with
          status := { looper0.status with state := .CLEAR_ALL },
          tracks := looper0.tracks.set 0
            { trackAt looper0.tracks 0 with
              pattern := (List.replicate 32 false).set 3 true } }
        false 7).status.state = LooperState.WAITING
    ∧ LooperState.WAITING ≠ LooperState.PLAYING
    ∧ (trackAt (looper_process_state
        { looper0 with
          status := { looper0.status with state := .CLEAR_ALL },
          tracks := looper0.tracks.set 0
            { trackAt looper0.tracks 0 with
              pattern := (List.replicate 32 false).set 3 true } }
        false 7).tracks 0).pattern.getD 3 false = true := by decide

/-- C8 (amended): a tick beginning in CLEAR_TRACKS with the transport
connected zeroes every track's pattern, resets current_track to 0 and
transitions to PLAYING. -/
theorem c8_clear_tracks_tick (lo : Looper) (now : Nat) (hst : lo.status.state = .CLEAR_ALL) :
    (looper_process_state lo true now).tracks
      = lo.tracks.map (fun tr => { tr with pattern := List.replicate LOOPER_TOTAL_STEPS false })
    ∧ (∀ tr ∈ (looper_process_state lo true now).tracks,
        tr.pattern = List.replicate LOOPER_TOTAL_STEPS false)
    ∧ (looper_process_state lo true now).status.current_track = 0
    ∧ (looper_process_state lo true now).status.state = .PLAYING := by
  refine ⟨?_, ?_, ?_, ?_⟩ <;>
    simp [looper_process_state, looper_next_step, looper_clear_all_tracks, hst]

/-- C8 (witness): the clear-tracks tick from a concrete CLEAR_TRACKS
state with a non-empty pattern. -/
theorem c8_clear_tracks_tick_witness :
    { looper0 with
      status := { looper0.status with state := .CLEAR_ALL },
      tracks := looper0.tracks.set 0
        { trackAt looper0.tracks 0 with
          pattern := (List.replicate 32 false).set 3 true } }.status.state
        = LooperState.CLEAR_ALL
    ∧ ((looper_process_state
          { looper0 with
            status := { looper0.status with state := .CLEAR_ALL },
            tracks := looper0.tracks.set 0
              { trackAt looper0.tracks 0 with
                pattern := (List.replicate 32 false).set 3 true } } true 7).tracks
        = { looper0 with
            status := { looper0.status with state := .CLEAR_ALL },
            tracks := looper0.tracks.set 0
              { trackAt looper0.tracks 0 with
                pattern := (List.replicate 32 false).set 3 true } }.tracks.map
            (fun tr : Track => { tr with pattern := List.replicate LOOPER_TOTAL_STEPS false })
      ∧ (∀ tr ∈ (looper_process_state
          { looper0 with
            status := { looper0.status with state := .CLEAR_ALL },
            tracks := looper0.tracks.set 0
              { trackAt looper0.tracks 0 with
                pattern := (List.replicate 32 false).set 3 true } } true 7).tracks,
          tr.pattern = List.replicate LOOPER_TOTAL_STEPS false)
      ∧ (looper_process_state
          { looper0 with
            status := { looper0.status with state := .CLEAR_ALL },
            tracks := looper0.tracks.set 0
              { trackAt looper0.tracks 0 with
                pattern := (List.replicate 32 false).set 3 true } } true 7).status.current_track
          = 0
      ∧ (looper_process_state
          { looper0 with
            status := { looper0.status with state := .CLEAR_ALL },
            tracks := looper0.tracks.set 0
              { trackAt looper0.tracks 0 with
                pattern := (List.replicate 32 false).set 3 true } } true 7).status.state
          = .PLAYING) :=
  ⟨by decide,
    c8_clear_tracks_tick
      { looper0 with
        status := { looper0.status with state := .CLEAR_ALL },
        tracks := looper0.tracks.set 0
          { trackAt looper0.tracks 0 with
            pattern := (List.replicate 32 false).set 3 true } } 7 (by decide)⟩

/-! ## Claim C9 -/

/-- C9: the re-arm delay equals max(1, step_duration_ms - elapsed_ms)
where elapsed_ms is the elapsed processing time in whole milliseconds,
and it is always at least 1 (never 0). -/
theorem c9_scheduler_delay (d start now : Nat) (hd : 1 ≤ d) (hs : start ≤ now)
    (hn : now - start < UINT64_SIZE) :
    looper_reset_step_timer_delay d start now = max 1 (d - (now - start) / 1000)
    ∧ 1 ≤ looper_reset_step_timer_delay d start now := by
  have h1 : (now + UINT64_SIZE - start) % UINT64_SIZE = now - start := by
    simp only [UINT64_SIZE] at *
    omega
  simp only [looper_reset_step_timer_delay, h1]
  split_ifs with h <;> constructor <;> omega

/-- C9 (witness): with a 100 ms step and 30 ms of processing the delay
is max(1, 100 - 30) = 70. -/
theorem c9_scheduler_delay_witness :
    (1 ≤ 100 ∧ 0 ≤ 30000 ∧ 30000 - 0 < UINT64_SIZE)
    ∧ looper_reset_step_timer_delay 100 0 30000 = max 1 (100 - (30000 - 0) / 1000)
    ∧ 1 ≤ looper_reset_step_timer_delay 100 0 30000 :=
  ⟨by decide, c9_scheduler_delay 100 0 30000 (by decide) (by decide) (by decide)⟩

/-! ## Claim C10 -/

/-- C10 (counterexample): a poll in PRESSED with the button still down
and 3 s elapsed (past T1 = 500 ms) transitions to LONG_HOLD emitting
LONG_HOLD_BEGIN, not to HOLD with HOLD_BEGIN — so HOLD_BEGIN is not the
only duration-driven transition out of PRESSED. -/
theorem c10_counterexample :
    button_poll_event ⟨.PRESS_DOWN, 0⟩ true 3000000
      = (.LONG_HOLD_BEGIN, ⟨.LONG_HOLD_ACTIVE, 0⟩)
    ∧ ButtonEvent.LONG_HOLD_BEGIN ≠ ButtonEvent.HOLD_BEGIN
    ∧ 3000000 - 0 > PRESS_DURATION_US := by decide

/-- C10 (amended): a poll in PRESSED with the button down compares the
elapsed press duration with strict `>`: at most T1 elapsed gives no event
(so exactly T1 does not transition), more than T1 but at most T2 = 2 s
transitions to HOLD emitting HOLD_BEGIN, and more than T2 transitions
directly to LONG_HOLD emitting LONG_HOLD_BEGIN. -/
theorem c10_pressed_transitions (start now : Nat) (hs : start ≤ now)
    (hn : now - start < UINT64_SIZE) :
    (now - start ≤ PRESS_DURATION_US →
      button_poll_event ⟨.PRESS_DOWN, start⟩ true now = (.NONE, ⟨.PRESS_DOWN, start⟩))
    ∧ (PRESS_DURATION_US < now - start → now - start ≤ LONG_PRESS_DURATION_US →
      button_poll_event ⟨.PRESS_DOWN, start⟩ true now = (.HOLD_BEGIN, ⟨.HOLD_ACTIVE, start⟩))
    ∧ (LONG_PRESS_DURATION_US < now - start →
      button_poll_event ⟨.PRESS_DOWN, start⟩ true now
        = (.LONG_HOLD_BEGIN, ⟨.LONG_HOLD_ACTIVE, start⟩)) := by
  have h1 : (now + UINT64_SIZE - start) % UINT64_SIZE = now - start := by
    simp only [UINT64_SIZE] at *
    omega
  simp only [button_poll_event, h1, PRESS_DURATION_US, LONG_PRESS_DURATION_US, Bool.not_true]
  refine ⟨fun h => ?_, fun h h2 => ?_, fun h => ?_⟩
  · rw [if_neg (by simp), if_neg (by omega), if_neg (by omega)]
  · rw [if_neg (by simp), if_neg (by omega), if_pos (by omega)]
  · rw [if_neg (by simp), if_pos (by omega)]

/-- C10 (witness): at 600 ms elapsed the PRESSED poll yields HOLD_BEGIN
and moves to HOLD. -/
theorem c10_pressed_transitions_witness :
    (0 ≤ 600000 ∧ 600000 - 0 < UINT64_SIZE ∧ PRESS_DURATION_US < 600000 - 0
      ∧ 600000 - 0 ≤ LONG_PRESS_DURATION_US)
    ∧ button_poll_event ⟨.PRESS_DOWN, 0⟩ true 600000 = (.HOLD_BEGIN, ⟨.HOLD_ACTIVE, 0⟩) :=
  ⟨by decide,
    (c10_pressed_transitions 0 600000 (by decide) (by decide)).2.1 (by decide) (by decide)⟩

end PicoLooper
